import Mathlib

/-!
Shallow embedding of the equipment-reservation backend.

Database rows are modelled as Lean structures, the database as lists of
rows, and each model method / route handler as a pure function from a
database state (plus request data) to a result and a new state.
Timestamps are integers (millisecond epochs compare like integers in the
source's SQL and Date comparisons).  SQL `get` (first row) is `List.find?`,
SQL `UPDATE ... WHERE` is `List.map` guarded on the key, and JS optional
request fields are `Option` (JS truthiness of ids/timestamps/strings is
modelled by presence of the value).
-/

namespace EquipRes

/-- A row of the `reservations` table. -/
structure ReservationRow where
  id : Nat
  equipment_id : Nat
  user_id : Nat
  start_time : Int
  end_time : Int
  purpose : String
  status : String
  deriving Repr, DecidableEq

/-- A row of the `equipment` table (fields the modelled routes touch). -/
structure EquipmentRow where
  id : Nat
  name : String
  description : String
  location : String
  status : String
  image_url : Option String
  deriving Repr, DecidableEq

/-- A row of the `equipment_permissions` table. -/
structure PermissionRow where
  equipment_id : Nat
  user_id : Nat
  granted_by : Nat
  permission_level : String
  deriving Repr, DecidableEq

/-- The database state: the three tables the modelled routes touch, plus
the id sequence for reservation inserts. -/
structure DB where
  reservations : List ReservationRow
  equipment : List EquipmentRow
  permissions : List PermissionRow
  nextReservationId : Nat
  deriving Repr, DecidableEq

/-- The authenticated requester (`req.user`): id, legacy `role`, and the
richer `user_role`. -/
structure ReqUser where
  id : Nat
  role : String
  user_role : String
  deriving Repr, DecidableEq

/-- Result of a route handler: an HTTP error with its status code, a plain
success message, or (for creation) the new row id and assigned status. -/
inductive RouteResult where
  | error (code : Nat) (msg : String)
  | ok (msg : String)
  | created (reservationId : Nat) (status : String)
  deriving Repr, DecidableEq

namespace Reservation

/-- `Reservation.checkConflict` (src/models/Reservation.js:16-36): SELECT
over `reservations` with the three-disjunct overlap condition, excluding
cancelled rows and optionally one reservation id; returns whether any row
matched. -/
def checkConflict (db : DB) (equipmentId : Nat) (startTime endTime : Int)
    (excludeReservationId : Option Nat := none) : Bool :=
  let conflicts := db.reservations.filter (fun r =>
    r.equipment_id == equipmentId &&
    r.status != "cancelled" &&
    ((r.start_time ≤ startTime && r.end_time > startTime) ||
     (r.start_time < endTime && r.end_time ≥ endTime) ||
     (r.start_time ≥ startTime && r.end_time ≤ endTime)) &&
    (match excludeReservationId with
     | none => true
     | some ex => r.id != ex))
  conflicts.length != 0

/-- `Reservation.create` (src/models/Reservation.js:5-13): INSERT RETURNING
id.  The id comes from the table's sequence, modelled by
`nextReservationId`. -/
def create (db : DB) (equipmentId userId : Nat) (startTime endTime : Int)
    (purpose status : String) : Nat × DB :=
  let rid := db.nextReservationId
  (rid,
   { db with
       reservations := db.reservations ++
         [⟨rid, equipmentId, userId, startTime, endTime, purpose, status⟩],
       nextReservationId := rid + 1 })

/-- `Reservation.findById` (src/models/Reservation.js:86-100): first row
with the given id, or none. -/
def findById (db : DB) (id : Nat) : Option ReservationRow :=
  db.reservations.find? (fun r => r.id == id)

/-- `Reservation.update` (src/models/Reservation.js:103-110): UPDATE
start_time, end_time, purpose, status WHERE id matches. -/
def update (db : DB) (id : Nat) (startTime endTime : Int)
    (purpose status : String) : DB :=
  { db with
      reservations := db.reservations.map (fun r =>
        if r.id == id then
          { r with start_time := startTime, end_time := endTime,
                   purpose := purpose, status := status }
        else r) }

/-- `Reservation.cancel` (src/models/Reservation.js:113-116): UPDATE status
to cancelled WHERE id matches. -/
def cancel (db : DB) (id : Nat) : DB :=
  { db with
      reservations := db.reservations.map (fun r =>
        if r.id == id then { r with status := "cancelled" } else r) }

end Reservation

namespace Equipment

/-- `Equipment.findById` (src/models/Equipment.js:21-24). -/
def findById (db : DB) (id : Nat) : Option EquipmentRow :=
  db.equipment.find? (fun e => e.id == id)

/-- `Equipment.updateStatus` (src/models/Equipment.js:49-52): UPDATE status
WHERE id matches. -/
def updateStatus (db : DB) (id : Nat) (status : String) : DB :=
  { db with
      equipment := db.equipment.map (fun e =>
        if e.id == id then { e with status := status } else e) }

end Equipment

namespace Permission

/-- `Permission.hasPermission` (level-aware variant of
src/models/Permission.js): first permission row for the
(equipment, user) pair, or none. -/
def hasPermission (db : DB) (equipmentId userId : Nat) :
    Option PermissionRow :=
  db.permissions.find? (fun p =>
    p.equipment_id == equipmentId && p.user_id == userId)

/-- `Permission.grant`, DO UPDATE variant (src/models/Permission.js:81-90):
INSERT ON CONFLICT (equipment_id, user_id) DO UPDATE SET permission_level,
granted_by.  The ON CONFLICT fires exactly when a row for the pair exists
(the pair is the table's uniqueness key). -/
def grant (db : DB) (equipmentId userId grantedBy : Nat)
    (permissionLevel : String) : DB :=
  if db.permissions.any (fun p =>
      p.equipment_id == equipmentId && p.user_id == userId) then
    { db with
        permissions := db.permissions.map (fun p =>
          if p.equipment_id == equipmentId && p.user_id == userId then
            { p with permission_level := permissionLevel,
                     granted_by := grantedBy }
          else p) }
  else
    { db with
        permissions := db.permissions ++
          [⟨equipmentId, userId, grantedBy, permissionLevel⟩] }

end Permission

namespace Routes

/-- POST / create reservation (src/routes/reservation.js:140-218), after
the auth middleware.  Required fields are enforced by the types; optional
`purpose` defaults to the empty string.  `now` is the request-time clock
(`new Date()`). -/
def createReservation (db : DB) (user : ReqUser) (equipment_id : Nat)
    (start_time end_time : Int) (purpose : Option String) (now : Int) :
    RouteResult × DB :=
  if start_time < now then
    (.error 400 "Cannot create reservation in the past", db)
  else if end_time ≤ start_time then
    (.error 400 "End time must be after start time", db)
  else
    match Equipment.findById db equipment_id with
    | none => (.error 404 "Equipment not found", db)
    | some equipment =>
      if equipment.status != "available" then
        (.error 400 "Equipment is not available", db)
      else if Reservation.checkConflict db equipment_id start_time end_time then
        (.error 409 "Time slot is already reserved", db)
      else
        let initialStatus :=
          if user.user_role == "admin" then "confirmed"
          else
            match Permission.hasPermission db equipment_id user.id with
            | some permission =>
              if permission.permission_level == "autonomous" ||
                 permission.permission_level == "manager" then "confirmed"
              else "pending"
            | none => "pending"
        let res := Reservation.create db equipment_id user.id start_time
          end_time (purpose.getD "") initialStatus
        (.created res.1 initialStatus, res.2)

/-- PUT /:id update reservation (src/routes/reservation.js:221-269), after
the auth middleware.  The conflict check runs only inside
`if (start_time && end_time)`, i.e. when both new times are supplied;
otherwise the row is written directly, each field defaulting to its stored
value. -/
def updateReservation (db : DB) (user : ReqUser) (id : Nat)
    (start_time end_time : Option Int) (purpose status : Option String) :
    RouteResult × DB :=
  match Reservation.findById db id with
  | none => (.error 404 "Reservation not found", db)
  | some reservation =>
    if reservation.user_id != user.id && user.role != "admin" then
      (.error 403 "Access denied", db)
    else
      let write : RouteResult × DB :=
        (.ok "Reservation updated successfully",
         Reservation.update db id
           (start_time.getD reservation.start_time)
           (end_time.getD reservation.end_time)
           (purpose.getD reservation.purpose)
           (status.getD reservation.status))
      match start_time, end_time with
      | some s, some e =>
        if e ≤ s then
          (.error 400 "End time must be after start time", db)
        else if Reservation.checkConflict db reservation.equipment_id s e
            (some id) then
          (.error 409 "Time slot is already reserved", db)
        else write
      | _, _ => write

/-- PATCH /:id/cancel (src/routes/reservation.js:272-290), after the auth
middleware. -/
def cancelReservation (db : DB) (user : ReqUser) (id : Nat) :
    RouteResult × DB :=
  match Reservation.findById db id with
  | none => (.error 404 "Reservation not found", db)
  | some reservation =>
    if reservation.user_id != user.id && user.role != "admin" then
      (.error 403 "Access denied", db)
    else
      (.ok "Reservation cancelled successfully", Reservation.cancel db id)

/-- PATCH /:id/restore (src/routes/reservation.js:293-329); the route is
behind the admin middleware, so the handler body has no further ownership
check. -/
def restoreReservation (db : DB) (id : Nat) : RouteResult × DB :=
  match Reservation.findById db id with
  | none => (.error 404 "Reservation not found", db)
  | some reservation =>
    if reservation.status != "cancelled" then
      (.error 400 "Only cancelled reservations can be restored", db)
    else if Reservation.checkConflict db reservation.equipment_id
        reservation.start_time reservation.end_time (some id) then
      (.error 409 "Cannot restore - time slot is now occupied by another reservation", db)
    else
      (.ok "Reservation restored successfully",
       Reservation.update db id reservation.start_time reservation.end_time
         reservation.purpose "confirmed")

/-- PATCH /:id/status on equipment (equipment routes, both variants agree),
after the admin middleware.  A missing status is modelled as `none`;
the value check is `['available','maintenance'].includes(status)`. -/
def updateEquipmentStatus (db : DB) (id : Nat) (status : Option String) :
    RouteResult × DB :=
  match status with
  | none => (.error 400 "Valid status is required (available/maintenance)", db)
  | some st =>
    if !(st == "available" || st == "maintenance") then
      (.error 400 "Valid status is required (available/maintenance)", db)
    else
      match Equipment.findById db id with
      | none => (.error 404 "Equipment not found", db)
      | some _ =>
        (.ok "Equipment status updated successfully",
         Equipment.updateStatus db id st)

end Routes

/-- Grant rows stored for one (equipment, user) pair; the pair is the
table's uniqueness key, so a consistent state holds at most one such
row. -/
def permsFor (db : DB) (equipmentId userId : Nat) : List PermissionRow :=
  db.permissions.filter (fun p =>
    p.equipment_id == equipmentId && p.user_id == userId)

/-! Concrete sample states used by the witness theorems. -/

/-- A piece of available equipment. -/
def laserCutter : EquipmentRow :=
  ⟨1, "laser cutter", "60W CO2", "lab A", "available", none⟩

/-- An admin requester. -/
def adminUser : ReqUser := ⟨1, "admin", "admin"⟩

/-- A plain requester (student, legacy role `user`). -/
def studentUser : ReqUser := ⟨2, "user", "student"⟩

/-- A confirmed reservation of equipment 1 by user 2 on [0, 10). -/
def bookingA : ReservationRow := ⟨1, 1, 2, 0, 10, "cutting", "confirmed"⟩

/-- A confirmed reservation of equipment 1 by user 2 on [20, 30). -/
def bookingB : ReservationRow := ⟨2, 1, 2, 20, 30, "etching", "confirmed"⟩

/-- A cancelled reservation of equipment 1 by user 2 on [0, 10). -/
def bookingACancelled : ReservationRow :=
  ⟨1, 1, 2, 0, 10, "cutting", "cancelled"⟩

/-- Sample state: one available equipment, bookings A and B, no grants. -/
def dbTwoBookings : DB := ⟨[bookingA, bookingB], [laserCutter], [], 3⟩

/-- Sample state: booking A cancelled, booking B live. -/
def dbCancelledA : DB := ⟨[bookingACancelled, bookingB], [laserCutter], [], 3⟩

/-- Sample state: no reservations, no grants. -/
def dbEmpty : DB := ⟨[], [laserCutter], [], 1⟩

/-- Spec-side conflict formula (§4.3 of the spec): some non-cancelled
reservation of the equipment, other than the excluded one, has
`s < end AND e > start` against the candidate half-open interval. -/
def specConflict (db : DB) (equipmentId : Nat) (startTime endTime : Int)
    (excludeId : Option Nat) : Prop :=
  ∃ r ∈ db.reservations, r.equipment_id = equipmentId ∧
    r.status ≠ "cancelled" ∧
    (∀ ex, excludeId = some ex → r.id ≠ ex) ∧
    r.start_time < endTime ∧ r.end_time > startTime

/-! Helper lemmas: `find?` and `filter` commute with a row-mapping that
preserves the searched key. -/

theorem find?_map_of_pred_invariant {α : Type} (l : List α) (p : α → Bool)
    (f : α → α) (hf : ∀ x, p (f x) = p x) :
    (l.map f).find? p = (l.find? p).map f := by
  induction l with
  | nil => rfl
  | cons a l ih =>
    by_cases h : p a = true
    · have hfa : p (f a) = true := by rw [hf]; exact h
      rw [List.map_cons, List.find?_cons_of_pos (l.map f) hfa,
        List.find?_cons_of_pos l h, Option.map_some']
    · have hfa : ¬ p (f a) = true := by rw [hf]; exact h
      rw [List.map_cons, List.find?_cons_of_neg (l.map f) hfa,
        List.find?_cons_of_neg l h, ih]

theorem filter_map_of_pred_invariant {α : Type} (l : List α) (p : α → Bool)
    (f : α → α) (hf : ∀ x, p (f x) = p x) :
    (l.map f).filter p = (l.filter p).map f := by
  induction l with
  | nil => rfl
  | cons a l ih =>
    by_cases h : p a = true
    · have hfa : p (f a) = true := by rw [hf]; exact h
      rw [List.map_cons, List.filter_cons_of_pos hfa, List.filter_cons_of_pos h,
        List.map_cons, ih]
    · have hfa : ¬ p (f a) = true := by rw [hf]; exact h
      rw [List.map_cons, List.filter_cons_of_neg hfa, List.filter_cons_of_neg h,
        ih]

/-- After `Reservation.update`, looking the row up again returns it with
exactly the four written fields changed. -/
theorem findById_after_update (db : DB) (id : Nat) (s e : Int) (p st : String)
    (r : ReservationRow) (h : Reservation.findById db id = some r) :
    Reservation.findById (Reservation.update db id s e p st) id =
      some { r with start_time := s, end_time := e, purpose := p,
                    status := st } := by
  unfold Reservation.findById Reservation.update at *
  rw [find?_map_of_pred_invariant]
  · rw [h, Option.map_some']
    have hr := List.find?_some h
    simp only [beq_iff_eq] at hr
    simp [hr]
  · intro x
    by_cases hx : x.id == id <;> simp [hx]

/-- After `Reservation.cancel`, looking the row up again returns it with
only the status changed to cancelled. -/
theorem findById_after_cancel (db : DB) (id : Nat) (r : ReservationRow)
    (h : Reservation.findById db id = some r) :
    Reservation.findById (Reservation.cancel db id) id =
      some { r with status := "cancelled" } := by
  unfold Reservation.findById Reservation.cancel at *
  rw [find?_map_of_pred_invariant]
  · rw [h, Option.map_some']
    have hr := List.find?_some h
    simp only [beq_iff_eq] at hr
    simp [hr]
  · intro x
    by_cases hx : x.id == id <;> simp [hx]

/-- After `Equipment.updateStatus`, looking the row up again returns it
with only the status changed. -/
theorem findById_after_updateStatus (db : DB) (id : Nat) (st : String)
    (e : EquipmentRow) (h : Equipment.findById db id = some e) :
    Equipment.findById (Equipment.updateStatus db id st) id =
      some { e with status := st } := by
  unfold Equipment.findById Equipment.updateStatus at *
  rw [find?_map_of_pred_invariant]
  · rw [h, Option.map_some']
    have he := List.find?_some h
    simp only [beq_iff_eq] at he
    simp [he]
  · intro x
    by_cases hx : x.id == id <;> simp [hx]

/-- C1: `checkConflict` returns true iff some other non-cancelled
reservation of the equipment overlaps the candidate half-open interval in
the standard sense `s < end AND e > start`; the three-disjunct SQL
condition is equivalent to that formula whenever all intervals are
well-formed (`start < end`). -/
theorem C1_checkConflict_iff_specConflict (db : DB) (equipmentId : Nat)
    (startTime endTime : Int) (excludeId : Option Nat)
    (hcand : startTime < endTime)
    (hrows : ∀ r ∈ db.reservations, r.start_time < r.end_time) :
    Reservation.checkConflict db equipmentId startTime endTime excludeId =
      true ↔ specConflict db equipmentId startTime endTime excludeId := by
  unfold Reservation.checkConflict specConflict
  simp only [bne_iff_ne, ne_eq, List.length_eq_zero, List.filter_eq_nil_iff]
  push_neg
  constructor
  · rintro ⟨r, hmem, hpred⟩
    simp only [Bool.and_eq_true, Bool.or_eq_true, beq_iff_eq, bne_iff_ne,
      ne_eq, decide_eq_true_eq] at hpred
    refine ⟨r, hmem, hpred.1.1.1, hpred.1.1.2, ?_, ?_, ?_⟩
    · intro ex hex
      cases excludeId with
      | none => cases hex
      | some e =>
        cases hex
        simpa using hpred.2
    · have hwf := hrows r hmem
      have hor := hpred.1.2
      omega
    · have hwf := hrows r hmem
      have hor := hpred.1.2
      omega
  · rintro ⟨r, hmem, heq, hst, hex, hlt, hgt⟩
    refine ⟨r, hmem, ?_⟩
    simp only [Bool.and_eq_true, Bool.or_eq_true, beq_iff_eq, bne_iff_ne,
      ne_eq, decide_eq_true_eq]
    have hwf := hrows r hmem
    refine ⟨⟨⟨heq, hst⟩, by omega⟩, ?_⟩
    cases excludeId with
    | none => simp
    | some e => simpa using hex e rfl

/-- Witness for C1: on the two-booking state, [5, 15) conflicts with
booking A — established through the equivalence theorem. -/
theorem C1_checkConflict_iff_specConflict_witness :
    Reservation.checkConflict dbTwoBookings 1 5 15 none = true := by
  refine (C1_checkConflict_iff_specConflict dbTwoBookings 1 5 15 none
      (by decide) (by decide)).mpr
    ⟨bookingA, by decide, by decide, by decide, ?_, by decide, by decide⟩
  intro ex hex
  cases hex

/-- C2: with available equipment, a future well-ordered interval and no
conflict, the created reservation is `confirmed` for an admin requester,
`confirmed` for a holder of an `autonomous` or `manager` grant, and
`pending` for a `normal` grant holder or a requester with no grant. -/
theorem C2_create_status_policy (db : DB) (user : ReqUser)
    (equipment_id : Nat) (start_time end_time : Int)
    (purpose : Option String) (now : Int) (equipment : EquipmentRow)
    (hfind : Equipment.findById db equipment_id = some equipment)
    (havail : equipment.status = "available")
    (hpast : ¬ start_time < now)
    (hord : start_time < end_time)
    (hconf : Reservation.checkConflict db equipment_id start_time end_time
      = false) :
    (user.user_role = "admin" →
      (Routes.createReservation db user equipment_id start_time end_time
        purpose now).1 = .created db.nextReservationId "confirmed") ∧
    (user.user_role ≠ "admin" →
      ∀ p, Permission.hasPermission db equipment_id user.id = some p →
        (p.permission_level = "autonomous" ∨ p.permission_level = "manager") →
        (Routes.createReservation db user equipment_id start_time end_time
          purpose now).1 = .created db.nextReservationId "confirmed") ∧
    (user.user_role ≠ "admin" →
      (Permission.hasPermission db equipment_id user.id = none ∨
        ∃ p, Permission.hasPermission db equipment_id user.id = some p ∧
          p.permission_level = "normal") →
      (Routes.createReservation db user equipment_id start_time end_time
        purpose now).1 = .created db.nextReservationId "pending") := by
  have hord' : ¬ end_time ≤ start_time := by omega
  refine ⟨?_, ?_, ?_⟩
  · intro hrole
    unfold Routes.createReservation Reservation.create
    rw [if_neg hpast, if_neg hord', hfind]
    simp [havail, hconf, hrole]
  · intro hrole p hp hlev
    unfold Routes.createReservation Reservation.create
    rw [if_neg hpast, if_neg hord', hfind]
    rcases hlev with h | h <;>
      simp [havail, hconf, hrole, hp, h]
  · intro hrole hperm
    unfold Routes.createReservation Reservation.create
    rw [if_neg hpast, if_neg hord', hfind]
    rcases hperm with h | ⟨p, hp, hnorm⟩
    · simp [havail, hconf, hrole, h]
    · simp [havail, hconf, hrole, hp, hnorm]

/-- Witness for C2: an admin booking [0, 10) on the empty state gets
status confirmed. -/
theorem C2_create_status_policy_witness :
    (Routes.createReservation dbEmpty adminUser 1 0 10 none 0).1 =
      .created dbEmpty.nextReservationId "confirmed" :=
  (C2_create_status_policy dbEmpty adminUser 1 0 10 none 0 laserCutter
      (by decide) (by decide) (by decide) (by decide) (by decide)).1 (by decide)

/-- C7: creation rejects in the order past-start, non-positive interval,
equipment unavailable, interval conflict — returning the first rejection
that applies — and every rejection leaves the database unchanged. -/
theorem C7_create_rejection_order (db : DB) (user : ReqUser)
    (equipment_id : Nat) (start_time end_time : Int) (purpose : Option String)
    (now : Int) (equipment : EquipmentRow)
    (hfind : Equipment.findById db equipment_id = some equipment) :
    (start_time < now →
      Routes.createReservation db user equipment_id start_time end_time
        purpose now =
        (.error 400 "Cannot create reservation in the past", db)) ∧
    (¬ start_time < now → end_time ≤ start_time →
      Routes.createReservation db user equipment_id start_time end_time
        purpose now =
        (.error 400 "End time must be after start time", db)) ∧
    (¬ start_time < now → start_time < end_time →
      equipment.status ≠ "available" →
      Routes.createReservation db user equipment_id start_time end_time
        purpose now = (.error 400 "Equipment is not available", db)) ∧
    (¬ start_time < now → start_time < end_time →
      equipment.status = "available" →
      Reservation.checkConflict db equipment_id start_time end_time = true →
      Routes.createReservation db user equipment_id start_time end_time
        purpose now = (.error 409 "Time slot is already reserved", db)) := by
  refine ⟨?_, ?_, ?_, ?_⟩
  · intro hpast
    unfold Routes.createReservation
    rw [if_pos hpast]
  · intro hpast hord
    unfold Routes.createReservation
    rw [if_neg hpast, if_pos hord]
  · intro hpast hord hunavail
    unfold Routes.createReservation
    rw [if_neg hpast, if_neg (by omega : ¬ end_time ≤ start_time), hfind]
    simp [hunavail]
  · intro hpast hord havail hconf
    unfold Routes.createReservation
    rw [if_neg hpast, if_neg (by omega : ¬ end_time ≤ start_time), hfind]
    simp [havail, hconf]

/-- Witness for C7: booking [5, 15) on the two-booking state is rejected
with 409 and the state is unchanged. -/
theorem C7_create_rejection_order_witness :
    Routes.createReservation dbTwoBookings studentUser 1 5 15 none 0 =
      (.error 409 "Time slot is already reserved", dbTwoBookings) :=
  (C7_create_rejection_order dbTwoBookings studentUser 1 5 15 none 0
      laserCutter (by decide)).2.2.2 (by decide) (by decide) (by decide)
    (by decide)

/-- C3: restore rejects any reservation that is not cancelled, leaving the
state unchanged; on a cancelled reservation it re-runs the conflict check
on the original interval excluding the reservation itself, failing with a
409 and an unchanged state when a conflict exists, and otherwise setting
the status to confirmed with start, end and purpose unchanged. -/
theorem C3_restore (db : DB) (id : Nat) (r : ReservationRow)
    (hfind : Reservation.findById db id = some r) :
    (r.status ≠ "cancelled" →
      Routes.restoreReservation db id =
        (.error 400 "Only cancelled reservations can be restored", db)) ∧
    (r.status = "cancelled" →
      Reservation.checkConflict db r.equipment_id r.start_time r.end_time
        (some id) = true →
      Routes.restoreReservation db id =
        (.error 409
          "Cannot restore - time slot is now occupied by another reservation",
         db)) ∧
    (r.status = "cancelled" →
      Reservation.checkConflict db r.equipment_id r.start_time r.end_time
        (some id) = false →
      (Routes.restoreReservation db id).1 =
        .ok "Reservation restored successfully" ∧
      Reservation.findById (Routes.restoreReservation db id).2 id =
        some { r with status := "confirmed" }) := by
  refine ⟨?_, ?_, ?_⟩
  · intro hst
    unfold Routes.restoreReservation
    rw [hfind]
    simp [hst]
  · intro hst hconf
    unfold Routes.restoreReservation
    rw [hfind]
    simp [hst, hconf]
  · intro hst hconf
    unfold Routes.restoreReservation
    rw [hfind]
    simp [hst, hconf, findById_after_update db id r.start_time r.end_time
      r.purpose "confirmed" r hfind]

/-- Witness for C3: restoring the cancelled booking A next to the live
booking B succeeds and flips its status to confirmed. -/
theorem C3_restore_witness :
    (Routes.restoreReservation dbCancelledA 1).1 =
      .ok "Reservation restored successfully" ∧
    Reservation.findById (Routes.restoreReservation dbCancelledA 1).2 1 =
      some { bookingACancelled with status := "confirmed" } :=
  (C3_restore dbCancelledA 1 bookingACancelled (by decide)).2.2 (by decide)
    (by decide)

/-- C4 counterexample: updating only the start time of booking B to 5
moves it onto [5, 30), which overlaps booking A [0, 10) — the code's own
conflict check flags the new interval — yet the update succeeds and is
written, because the conflict check only runs when both times are
supplied. -/
theorem C4_counterexample :
    Reservation.checkConflict dbTwoBookings 1 5 30 (some 2) = true ∧
    (Routes.updateReservation dbTwoBookings studentUser 2 (some 5) none none
      none).1 = .ok "Reservation updated successfully" ∧
    Reservation.findById
      (Routes.updateReservation dbTwoBookings studentUser 2 (some 5) none none
        none).2 2 = some ⟨2, 1, 2, 5, 30, "etching", "confirmed"⟩ := by
  decide

/-- C4 amended: the overlap re-validation runs exactly when the request
supplies both a new start and a new end; then a conflicting interval is
rejected with 409 and nothing is written, and a conflict-free interval is
written.  A request supplying only one of the two times skips the check
and writes unconditionally.  Status is whatever the caller supplied
(stored value when absent) — the creation policy is not re-run. -/
theorem C4_update_conflict_recheck (db : DB) (user : ReqUser) (id : Nat)
    (s e : Int) (purpose status : Option String) (r : ReservationRow)
    (hfind : Reservation.findById db id = some r)
    (hauth : r.user_id = user.id ∨ user.role = "admin") :
    (s < e →
      Reservation.checkConflict db r.equipment_id s e (some id) = true →
      Routes.updateReservation db user id (some s) (some e) purpose status =
        (.error 409 "Time slot is already reserved", db)) ∧
    (s < e →
      Reservation.checkConflict db r.equipment_id s e (some id) = false →
      Routes.updateReservation db user id (some s) (some e) purpose status =
        (.ok "Reservation updated successfully",
         Reservation.update db id s e (purpose.getD r.purpose)
           (status.getD r.status))) ∧
    (Routes.updateReservation db user id (some s) none purpose status =
      (.ok "Reservation updated successfully",
       Reservation.update db id s r.end_time (purpose.getD r.purpose)
         (status.getD r.status))) ∧
    (Routes.updateReservation db user id none (some e) purpose status =
      (.ok "Reservation updated successfully",
       Reservation.update db id r.start_time e (purpose.getD r.purpose)
         (status.getD r.status))) := by
  have hauthb : (r.user_id != user.id && user.role != "admin") = false := by
    rcases hauth with h | h <;> simp [h]
  refine ⟨?_, ?_, ?_, ?_⟩
  · intro hord hconf
    unfold Routes.updateReservation
    rw [hfind]
    simp [hauthb, hconf, (show ¬ e ≤ s by omega)]
  · intro hord hconf
    unfold Routes.updateReservation
    rw [hfind]
    simp [hauthb, hconf, (show ¬ e ≤ s by omega)]
  · unfold Routes.updateReservation
    rw [hfind]
    simp [hauthb]
  · unfold Routes.updateReservation
    rw [hfind]
    simp [hauthb]

/-- Witness for the amended C4: moving booking B onto [5, 15) with both
times supplied is rejected with 409 and nothing changes. -/
theorem C4_update_conflict_recheck_witness :
    Routes.updateReservation dbTwoBookings studentUser 2 (some 5) (some 15)
      none none = (.error 409 "Time slot is already reserved", dbTwoBookings) :=
  (C4_update_conflict_recheck dbTwoBookings studentUser 2 5 15 none none
      bookingB (by decide) (Or.inl (by decide))).1 (by decide) (by decide)

/-- C6 counterexample: the exposed update operation writes whatever status
the caller supplies, so it moves the confirmed booking B back to pending —
a transition the claimed state machine forbids. -/
theorem C6_counterexample :
    Reservation.findById dbTwoBookings 2 = some bookingB ∧
    bookingB.status = "confirmed" ∧
    Reservation.findById
      (Routes.updateReservation dbTwoBookings studentUser 2 none none none
        (some "pending")).2 2 =
      some { bookingB with status := "pending" } := by
  decide

/-- C6 amended: among the exposed operations, create, cancel and restore
respect the claimed transitions — cancel leaves every row unchanged or
moves it to cancelled, restore leaves every row unchanged or moves a
cancelled row to confirmed, and create leaves every existing row in place —
but update writes the caller-supplied status unconditionally, so arbitrary
transitions (such as confirmed to pending) are possible through it. -/
theorem C6_status_transitions (db : DB) (user : ReqUser)
    (id equipment_id : Nat) (s e now : Int) (purpose : Option String)
    (huniq : ∀ r1 ∈ db.reservations, ∀ r2 ∈ db.reservations,
      r1.id = r2.id → r1 = r2) :
    (∀ r' ∈ (Routes.cancelReservation db user id).2.reservations,
      ∃ rr ∈ db.reservations,
        r' = rr ∨ r' = { rr with status := "cancelled" }) ∧
    (∀ r' ∈ (Routes.restoreReservation db id).2.reservations,
      ∃ rr ∈ db.reservations,
        r' = rr ∨ (rr.status = "cancelled" ∧
          r' = { rr with status := "confirmed" })) ∧
    (∀ rr ∈ db.reservations,
      rr ∈ (Routes.createReservation db user equipment_id s e purpose
        now).2.reservations) := by
  refine ⟨?_, ?_, ?_⟩
  · intro r' hr'
    unfold Routes.cancelReservation at hr'
    rcases hf : Reservation.findById db id with _ | r
    · rw [hf] at hr'
      exact ⟨r', hr', Or.inl rfl⟩
    · rw [hf] at hr'
      dsimp only at hr'
      by_cases hauth : (r.user_id != user.id && user.role != "admin") = true
      · rw [if_pos hauth] at hr'
        exact ⟨r', hr', Or.inl rfl⟩
      · rw [if_neg hauth] at hr'
        unfold Reservation.cancel at hr'
        simp only [List.mem_map] at hr'
        obtain ⟨rr, hrr, hmap⟩ := hr'
        refine ⟨rr, hrr, ?_⟩
        by_cases hid : (rr.id == id) = true
        · rw [if_pos hid] at hmap
          exact Or.inr hmap.symm
        · rw [if_neg hid] at hmap
          exact Or.inl hmap.symm
  · intro r' hr'
    unfold Routes.restoreReservation at hr'
    rcases hf : Reservation.findById db id with _ | r
    · rw [hf] at hr'
      exact ⟨r', hr', Or.inl rfl⟩
    · rw [hf] at hr'
      dsimp only at hr'
      by_cases hst : (r.status != "cancelled") = true
      · rw [if_pos hst] at hr'
        exact ⟨r', hr', Or.inl rfl⟩
      · rw [if_neg hst] at hr'
        by_cases hc : Reservation.checkConflict db r.equipment_id
            r.start_time r.end_time (some id) = true
        · rw [if_pos hc] at hr'
          exact ⟨r', hr', Or.inl rfl⟩
        · rw [if_neg hc] at hr'
          unfold Reservation.update at hr'
          simp only [List.mem_map] at hr'
          obtain ⟨rr, hrr, hmap⟩ := hr'
          refine ⟨rr, hrr, ?_⟩
          by_cases hid : (rr.id == id) = true
          · have hrmem : r ∈ db.reservations :=
              List.mem_of_find?_eq_some hf
            have hrid : r.id = id := by
              simpa using List.find?_some hf
            have hrr_eq : rr = r := by
              apply huniq rr hrr r hrmem
              rw [hrid]
              simpa using hid
            rw [if_pos hid] at hmap
            subst hrr_eq
            refine Or.inr ⟨by simpa using hst, ?_⟩
            exact hmap.symm
          · rw [if_neg hid] at hmap
            exact Or.inl hmap.symm
  · intro rr hrr
    unfold Routes.createReservation Reservation.create
    split
    · exact hrr
    · split
      · exact hrr
      · split
        · exact hrr
        · split
          · exact hrr
          · split
            · exact hrr
            · simpa using Or.inl hrr

/-- Witness for the amended C6: cancelling booking A on the two-booking
state yields a row that is its old self with status cancelled. -/
theorem C6_status_transitions_witness :
    ∃ rr ∈ dbTwoBookings.reservations,
      { bookingA with status := "cancelled" } = rr ∨
      { bookingA with status := "cancelled" } =
        { rr with status := "cancelled" } :=
  (C6_status_transitions dbTwoBookings studentUser 1 1 0 10 0 none
      (by decide)).1 { bookingA with status := "cancelled" } (by decide)

/-- C8: only creation enforces the not-in-the-past rule — a past start is
rejected at creation, while an update whose new interval lies entirely
before the clock and a restore whose original interval lies entirely
before the clock both succeed when their other preconditions hold. -/
theorem C8_past_check_only_at_creation (db : DB) (user : ReqUser)
    (id equipment_id : Nat) (s e now : Int)
    (pstr purpose status : Option String) :
    (s < now →
      (Routes.createReservation db user equipment_id s e pstr now).1 =
        .error 400 "Cannot create reservation in the past") ∧
    (∀ r, Reservation.findById db id = some r →
      (r.user_id = user.id ∨ user.role = "admin") → s < e →
      Reservation.checkConflict db r.equipment_id s e (some id) = false →
      e < now →
      (Routes.updateReservation db user id (some s) (some e) purpose
        status).1 = .ok "Reservation updated successfully") ∧
    (∀ r, Reservation.findById db id = some r → r.status = "cancelled" →
      Reservation.checkConflict db r.equipment_id r.start_time r.end_time
        (some id) = false →
      r.end_time < now →
      (Routes.restoreReservation db id).1 =
        .ok "Reservation restored successfully") := by
  refine ⟨?_, ?_, ?_⟩
  · intro hpast
    unfold Routes.createReservation
    rw [if_pos hpast]
  · intro r hfind hauth hord hconf _
    have hauthb : (r.user_id != user.id && user.role != "admin") = false := by
      rcases hauth with h | h <;> simp [h]
    unfold Routes.updateReservation
    rw [hfind]
    simp [hauthb, hconf, (show ¬ e ≤ s by omega)]
  · intro r hfind hst hconf _
    unfold Routes.restoreReservation
    rw [hfind]
    simp [hst, hconf]

/-- Witness for C8: with the clock at 100, updating booking B to the
entirely-past interval [-20, -10) succeeds. -/
theorem C8_past_check_only_at_creation_witness :
    (Routes.updateReservation dbTwoBookings studentUser 2 (some (-20))
      (some (-10)) none none).1 = .ok "Reservation updated successfully" :=
  (C8_past_check_only_at_creation dbTwoBookings studentUser 2 1 (-20) (-10)
      100 none none none).2.1 bookingB (by decide) (Or.inl (by decide))
    (by decide) (by decide) (by decide)

/-- C9: the equipment status route accepts exactly available and
maintenance — a missing or any other value is rejected with a validation
error and an unchanged state, and an accepted value is written to the
equipment row's status field. -/
theorem C9_updateEquipmentStatus (db : DB) (id : Nat) :
    (Routes.updateEquipmentStatus db id none =
      (.error 400 "Valid status is required (available/maintenance)", db)) ∧
    (∀ st, st ≠ "available" → st ≠ "maintenance" →
      Routes.updateEquipmentStatus db id (some st) =
        (.error 400 "Valid status is required (available/maintenance)", db)) ∧
    (∀ st eqp, (st = "available" ∨ st = "maintenance") →
      Equipment.findById db id = some eqp →
      (Routes.updateEquipmentStatus db id (some st)).1 =
        .ok "Equipment status updated successfully" ∧
      Equipment.findById (Routes.updateEquipmentStatus db id (some st)).2 id =
        some { eqp with status := st }) := by
  refine ⟨rfl, ?_, ?_⟩
  · intro st h1 h2
    unfold Routes.updateEquipmentStatus
    simp [h1, h2]
  · intro st eqp hval hfind
    have hok : (!(st == "available" || st == "maintenance")) = false := by
      rcases hval with h | h <;> simp [h]
    unfold Routes.updateEquipmentStatus
    dsimp only
    rw [hok]
    simp only [Bool.false_eq_true, if_false, hfind]
    exact ⟨trivial, findById_after_updateStatus db id st eqp hfind⟩

/-- Witness for C9: setting the laser cutter to maintenance succeeds and
is stored. -/
theorem C9_updateEquipmentStatus_witness :
    (Routes.updateEquipmentStatus dbEmpty 1 (some "maintenance")).1 =
      .ok "Equipment status updated successfully" ∧
    Equipment.findById
      (Routes.updateEquipmentStatus dbEmpty 1 (some "maintenance")).2 1 =
      some { laserCutter with status := "maintenance" } :=
  (C9_updateEquipmentStatus dbEmpty 1).2.2 "maintenance" laserCutter
    (Or.inr rfl) (by decide)

/-- C10: cancellation succeeds whatever the current status is, changes no
table other than reservations, changes in each reservation row nothing but
the status — set to cancelled on the targeted id, untouched elsewhere —
and is idempotent: cancelling again returns the same answer and leaves the
state identical. -/
theorem C10_cancel_frame_idempotent (db : DB) (user : ReqUser) (id : Nat)
    (r : ReservationRow) (hfind : Reservation.findById db id = some r)
    (hauth : r.user_id = user.id ∨ user.role = "admin") :
    (Routes.cancelReservation db user id).1 =
      .ok "Reservation cancelled successfully" ∧
    (Routes.cancelReservation db user id).2.equipment = db.equipment ∧
    (Routes.cancelReservation db user id).2.permissions = db.permissions ∧
    (Routes.cancelReservation db user id).2.nextReservationId =
      db.nextReservationId ∧
    (∀ r' ∈ (Routes.cancelReservation db user id).2.reservations,
      ∃ rr ∈ db.reservations,
        r'.id = rr.id ∧ r'.equipment_id = rr.equipment_id ∧
        r'.user_id = rr.user_id ∧ r'.start_time = rr.start_time ∧
        r'.end_time = rr.end_time ∧ r'.purpose = rr.purpose ∧
        r'.status = (if rr.id = id then "cancelled" else rr.status)) ∧
    Routes.cancelReservation (Routes.cancelReservation db user id).2 user id =
      (.ok "Reservation cancelled successfully",
       (Routes.cancelReservation db user id).2) := by
  have hauthb : (r.user_id != user.id && user.role != "admin") = false := by
    rcases hauth with h | h <;> simp [h]
  have hred : Routes.cancelReservation db user id =
      (.ok "Reservation cancelled successfully", Reservation.cancel db id) := by
    unfold Routes.cancelReservation
    rw [hfind]
    simp [hauthb]
  rw [hred]
  refine ⟨rfl, rfl, rfl, rfl, ?_, ?_⟩
  · intro r' hr'
    unfold Reservation.cancel at hr'
    simp only [List.mem_map] at hr'
    obtain ⟨rr, hrr, hmap⟩ := hr'
    refine ⟨rr, hrr, ?_⟩
    by_cases hid : (rr.id == id) = true
    · rw [if_pos hid] at hmap
      subst hmap
      simp only [beq_iff_eq] at hid
      simp [hid]
    · rw [if_neg hid] at hmap
      subst hmap
      simp only [beq_iff_eq] at hid
      simp [hid]
  · have hfind2 : Reservation.findById (Reservation.cancel db id) id =
        some { r with status := "cancelled" } :=
      findById_after_cancel db id r hfind
    unfold Routes.cancelReservation
    rw [hfind2]
    dsimp only
    rw [if_neg (show ¬ (r.user_id != user.id && user.role != "admin") = true
      by simp [hauthb])]
    have hmm : Reservation.cancel (Reservation.cancel db id) id =
        Reservation.cancel db id := by
      unfold Reservation.cancel
      dsimp only
      congr 1
      rw [List.map_map]
      apply List.map_congr_left
      intro x _
      by_cases hx : (x.id == id) = true
      · simp [Function.comp, hx]
      · simp [Function.comp, hx]
    rw [hmm]

/-- Witness for C10: cancelling booking A (currently confirmed) by its
owner. -/
theorem C10_cancel_frame_idempotent_witness :
    (Routes.cancelReservation dbTwoBookings studentUser 1).1 =
      .ok "Reservation cancelled successfully" :=
  (C10_cancel_frame_idempotent dbTwoBookings studentUser 1 bookingA
      (by decide) (Or.inl (by decide))).1

/-- C5: `Permission.grant` is an idempotent upsert — on a state whose
(equipment, user) uniqueness invariant holds, granting when no grant
exists appends exactly the new row, and granting twice with different
levels leaves exactly one row for the pair, holding the latest level and
granter. -/
theorem C5_grant_upsert (db : DB) (equipmentId userId g1 g2 : Nat)
    (l1 l2 : String)
    (huniq : (permsFor db equipmentId userId).length ≤ 1) :
    (permsFor db equipmentId userId = [] →
      permsFor (Permission.grant db equipmentId userId g1 l1) equipmentId
        userId = [⟨equipmentId, userId, g1, l1⟩]) ∧
    permsFor (Permission.grant (Permission.grant db equipmentId userId g1 l1)
        equipmentId userId g2 l2) equipmentId userId =
      [⟨equipmentId, userId, g2, l2⟩] := by
  have hgrant : ∀ (db' : DB) (g : Nat) (lv : String),
      permsFor (Permission.grant db' equipmentId userId g lv) equipmentId
        userId =
        if db'.permissions.any (fun q =>
            q.equipment_id == equipmentId && q.user_id == userId) = true
        then (db'.permissions.filter (fun q =>
            q.equipment_id == equipmentId && q.user_id == userId)).map
          (fun q => { q with permission_level := lv, granted_by := g })
        else db'.permissions.filter (fun q =>
            q.equipment_id == equipmentId && q.user_id == userId) ++
          [⟨equipmentId, userId, g, lv⟩] := by
    intro db' g lv
    unfold Permission.grant permsFor
    split
    · next hany =>
      dsimp only
      rw [filter_map_of_pred_invariant]
      · apply List.map_congr_left
        intro x hx
        rw [if_pos (List.mem_filter.mp hx).2]
      · intro x
        by_cases hx : (x.equipment_id == equipmentId && x.user_id == userId)
            = true
        · rw [if_pos hx]
        · rw [if_neg hx]
    · next hany =>
      dsimp only
      rw [List.filter_append]
      simp
  have hany_of_ne : ∀ (l : List PermissionRow),
      l.filter (fun q =>
        q.equipment_id == equipmentId && q.user_id == userId) ≠ [] →
      l.any (fun q =>
        q.equipment_id == equipmentId && q.user_id == userId) = true := by
    intro l hne
    by_cases h : l.any (fun q =>
        q.equipment_id == equipmentId && q.user_id == userId) = true
    · exact h
    · exfalso
      apply hne
      apply List.filter_eq_nil_iff.mpr
      intro x hx hpx
      exact h (List.any_eq_true.mpr ⟨x, hx, hpx⟩)
  have hfirst : ∀ (g : Nat) (lv : String),
      permsFor db equipmentId userId = [] →
      permsFor (Permission.grant db equipmentId userId g lv) equipmentId
        userId = [⟨equipmentId, userId, g, lv⟩] := by
    intro g lv hempty
    unfold permsFor at hempty
    rw [hgrant db g lv]
    have hany : ¬ (db.permissions.any (fun q =>
        q.equipment_id == equipmentId && q.user_id == userId) = true) := by
      intro h
      rcases List.any_eq_true.mp h with ⟨x, hx, hpx⟩
      exact (List.filter_eq_nil_iff.mp hempty x hx) hpx
    rw [if_neg hany, hempty, List.nil_append]
  rcases hl : permsFor db equipmentId userId with _ | ⟨q, rest⟩
  · have hdb1 := hfirst g1 l1 hl
    unfold permsFor at hdb1
    refine ⟨fun _ => hdb1, ?_⟩
    rw [hgrant _ g2 l2, if_pos (hany_of_ne _ (by rw [hdb1]; simp)), hdb1]
    rfl
  · have hrest : rest = [] := by
      rw [hl] at huniq
      simp only [List.length_cons] at huniq
      exact List.length_eq_zero.mp (by omega)
    subst hrest
    have hq : (q.equipment_id == equipmentId && q.user_id == userId)
        = true := by
      have hqmem : q ∈ permsFor db equipmentId userId := by
        rw [hl]
        exact List.mem_cons_self q []
      unfold permsFor at hqmem
      exact (List.mem_filter.mp hqmem).2
    have hqe : q.equipment_id = equipmentId := by
      simp only [Bool.and_eq_true, beq_iff_eq] at hq
      exact hq.1
    have hqu : q.user_id = userId := by
      simp only [Bool.and_eq_true, beq_iff_eq] at hq
      exact hq.2
    have hl' := hl
    unfold permsFor at hl'
    have hdb1 : permsFor (Permission.grant db equipmentId userId g1 l1)
        equipmentId userId = [⟨equipmentId, userId, g1, l1⟩] := by
      rw [hgrant db g1 l1, if_pos (hany_of_ne _ (by rw [hl']; simp)), hl']
      simp [hqe, hqu]
    unfold permsFor at hdb1
    refine ⟨?_, ?_⟩
    · intro hempty
      simp at hempty
    · rw [hgrant _ g2 l2, if_pos (hany_of_ne _ (by rw [hdb1]; simp)), hdb1]
      rfl

/-- Witness for C5: granting user 2 a normal and then a manager grant on
equipment 1 leaves exactly one row, at manager level. -/
theorem C5_grant_upsert_witness :
    permsFor (Permission.grant (Permission.grant dbEmpty 1 2 1 "normal") 1 2 1
      "manager") 1 2 = [⟨1, 2, 1, "manager"⟩] :=
  (C5_grant_upsert dbEmpty 1 2 1 1 "normal" "manager" (by decide)).2

end EquipRes
